import Mathlib

/-!
Shallow embedding of `src/createAnimatedComponent.js` from
react-native-reanimated (event-binding differ, props-graph binder,
stable-identity registry, deferred animated-props callback, animated-styles
publisher, wrap-time component check, native prop-update routing, and the
static prop projector), together with theorems settling the specification
claims about those operations.
-/

namespace Reanimated

/-! ## Event-binding differ (`_reattachNativeEvents`, lines 135-187)

Props relevant to the event differ.  A JS prop is either an `AnimatedEvent`
(identified by its stable `__nodeID`), a ref whose `current` is a
`WorkletEventHandler` (carrying its `viewTag` and `reattachNeeded` flag), or
some unrelated value.  Handler refs are modelled per key (no aliasing of one
handler object under two keys). -/
inductive EProp where
  | event (nodeID : Nat)
  | worklet (viewTag : Nat) (reattachNeeded : Bool)
  | plainE (v : Int)
deriving DecidableEq, Repr

/-- Native calls the differ can issue: `prop.attachEvent(node, key)`,
`prop.detachEvent(node, key)` (recorded with the prop's `__nodeID`),
`handler.unregisterFromEvents()` and `handler.registerForEvents(viewTag, key)`. -/
inductive NEvCall where
  | attach (nodeID : Nat) (key : String)
  | detach (nodeID : Nat) (key : String)
  | wunregister (key : String)
  | wregister (viewTag : Option Nat) (key : String)
deriving DecidableEq, Repr

/-- First loop of `_reattachNativeEvents` (lines 141-153): collect the
`__nodeID`s of all `AnimatedEvent` props in the CURRENT props (`nextEvts`). -/
def collectNextEvts (cur : List (String × EProp)) : List Nat :=
  cur.foldl (fun acc kv =>
    match kv.2 with
    | EProp.event id => acc ++ [id]
    | _ => acc) []

/-- Also from the first loop (lines 149-151): the `viewTag` of the first
worklet-handler prop in the current props, if any (`viewTag` stays
`undefined` otherwise). -/
def firstWorkletTag (cur : List (String × EProp)) : Option Nat :=
  cur.foldl (fun acc kv =>
    match acc, kv.2 with
    | none, EProp.worklet tag _ => some tag
    | _, _ => acc) none

/-- Second loop of `_reattachNativeEvents` (lines 154-171): iterate over the
keys of `prevProps`, but read the prop from `this.props` (the source reads
`this.props[key]`, line 155).  Returns the `attached` set and the calls
issued, in order. -/
def prevKeyLoop (cur : List (String × EProp)) (nextEvts : List Nat)
    (prevKeys : List String) : List Nat × List NEvCall :=
  prevKeys.foldl (fun acc key =>
    match cur.lookup key with
    | some (EProp.event id) =>
        if id ∈ nextEvts then (acc.1 ++ [id], acc.2)
        else (acc.1, acc.2 ++ [NEvCall.detach id key])
    | some (EProp.worklet _ true) => (acc.1, acc.2 ++ [NEvCall.wunregister key])
    | _ => acc) ([], [])

/-- Third loop of `_reattachNativeEvents` (lines 173-186): attach current
`AnimatedEvent` props whose id was not marked `attached`; register worklet
handlers flagged `reattachNeeded` (which also clears their flag; with
per-key handlers the flag clearing has no cross-key effect). -/
def curKeyLoop (cur : List (String × EProp)) (attached : List Nat)
    (viewTag : Option Nat) : List NEvCall :=
  cur.foldl (fun calls kv =>
    match kv.2 with
    | EProp.event id =>
        if id ∈ attached then calls else calls ++ [NEvCall.attach id kv.1]
    | EProp.worklet _ true => calls ++ [NEvCall.wregister viewTag kv.1]
    | _ => calls) []

/-- `_reattachNativeEvents(prevProps)` (lines 135-187), as the source writes
it: the second loop iterates the keys of `prevProps` but reads each prop from
`this.props` (the current props). -/
def reattachNativeEvents (prev cur : List (String × EProp)) : List NEvCall :=
  let nextEvts := collectNextEvts cur
  let viewTag := firstWorkletTag cur
  let res := prevKeyLoop cur nextEvts (prev.map Prod.fst)
  res.2 ++ curKeyLoop cur res.1 viewTag

/-- The event diff the spec describes (section 4.3 / the in-code comments at
lines 158-162): the second loop reads each prop from PREVIOUS props, so that
an event present only in `prevProps` is detached and a same-identity survivor
is marked attached.  Identical to `reattachNativeEvents` except that the
prev-loop reads `prevProps[key]`. -/
def specPrevKeyLoop (prev : List (String × EProp)) (nextEvts : List Nat) :
    List Nat × List NEvCall :=
  prev.foldl (fun acc kv =>
    match kv.2 with
    | EProp.event id =>
        if id ∈ nextEvts then (acc.1 ++ [id], acc.2)
        else (acc.1, acc.2 ++ [NEvCall.detach id kv.1])
    | EProp.worklet _ true => (acc.1, acc.2 ++ [NEvCall.wunregister kv.1])
    | _ => acc) ([], [])

/-- Spec-described event diff (section 4.3 steps 1-4). -/
def specEventDiff (prev cur : List (String × EProp)) : List NEvCall :=
  let nextEvts := collectNextEvts cur
  let viewTag := firstWorkletTag cur
  let res := specPrevKeyLoop prev nextEvts
  res.2 ++ curKeyLoop cur res.1 viewTag

/-! ## Props-graph binder (`_attachProps`, lines 209-229)

`createOrReusePropsNode` lives in `core/AnimatedProps` (an external
collaborator); it is abstracted as a function from the previously held node
to the node to install.  Reuse means it returns the node it was given. -/

/-- The per-instance animated-props slot (`this._propsAnimated`). -/
structure APState where
  propsAnimated : Option Nat
deriving DecidableEq, Repr

/-- Observable steps of `_attachProps`: installing a node into
`this._propsAnimated`, and calling `__detach` on the old node. -/
inductive APEvent where
  | install (node : Nat)
  | detachOld (node : Nat)
deriving DecidableEq, Repr

/-- `_attachProps(nextProps)` (lines 209-229): read the old node, install the
node returned by `createOrReusePropsNode`, and, only when the returned node
differs from the old one, call `__detach` on the old node (after the new one
is already installed). -/
def attachProps (binder : Option Nat → Nat) (s : APState) :
    APState × List APEvent :=
  let oldNode := s.propsAnimated
  let newNode := binder oldNode
  let installed : APState := ⟨some newNode⟩
  if some newNode = oldNode then (installed, [APEvent.install newNode])
  else
    (installed, APEvent.install newNode ::
      (match oldNode with
       | some o => [APEvent.detachOld o]
       | none => []))

/-! ## Stable-identity registry (`_attachPropUpdater` / `_detachPropUpdater`,
lines 236-242 and 302-308) and the event emitter channel. -/

/-- A listener on the `onReanimatedPropsChange` channel: the module-level
`listener` function the registry subscribes, or a listener added by someone
else. -/
inductive Listener where
  | registryListener
  | foreign (id : Nat)
deriving DecidableEq, Repr

/-- `NODE_MAPPING` (keys only; values are instances) together with the
emitter state of the `onReanimatedPropsChange` channel. -/
structure RegState where
  mapping : Finset Nat
  chan : List Listener
deriving DecidableEq

/-- Native subscription calls:
`ReanimatedEventEmitter.addListener('onReanimatedPropsChange', listener)` and
`ReanimatedEventEmitter.removeAllListeners('onReanimatedPropsChange')`. -/
inductive RegCall where
  | subscribe
  | unsubscribe
deriving DecidableEq, Repr

/-- `_attachPropUpdater()` (lines 236-242): `NODE_MAPPING.set(viewTag, this)`
then, if the map size is exactly 1, add the listener. -/
def attachPropUpdater (tag : Nat) (s : RegState) : RegState × List RegCall :=
  let m := insert tag s.mapping
  if m.card = 1 then
    (⟨m, s.chan ++ [Listener.registryListener]⟩, [RegCall.subscribe])
  else (⟨m, s.chan⟩, [])

/-- `_detachPropUpdater()` (lines 302-308): `NODE_MAPPING.delete(viewTag)`
then, if the map is empty, remove ALL listeners of the channel. -/
def detachPropUpdater (tag : Nat) (s : RegState) : RegState × List RegCall :=
  let m := s.mapping.erase tag
  if m.card = 0 then (⟨m, []⟩, [RegCall.unsubscribe])
  else (⟨m, s.chan⟩, [])

/-- A registry operation: a mount registering its view tag, or an unmount
removing it. -/
inductive RegOp where
  | register (tag : Nat)
  | unregister (tag : Nat)
deriving DecidableEq, Repr

/-- One registry operation; returns the new state and the subscription calls
it issued. -/
def regStep (s : RegState) (op : RegOp) : RegState × List RegCall :=
  match op with
  | RegOp.register tag => attachPropUpdater tag s
  | RegOp.unregister tag => detachPropUpdater tag s

/-- Run a sequence of registry operations, accumulating subscription calls in
order. -/
def runRegOps : List RegOp → RegState → RegState × List RegCall
  | [], s => (s, [])
  | op :: ops, s =>
      let r := regStep s op
      let r2 := runRegOps ops r.1
      (r2.1, r.2 ++ r2.2)

/-- Initial state: empty `NODE_MAPPING`, no listener subscribed. -/
def initRegState : RegState := ⟨∅, []⟩

/-- The channel is subscribed (the registry listener is installed). -/
def subscribed (s : RegState) : Prop := Listener.registryListener ∈ s.chan

instance (s : RegState) : Decidable (subscribed s) := by
  unfold subscribed; infer_instance

/-! ## Deferred animated-props callback (`_animatedPropsCallback`, lines
194-207, and the replay block of `componentDidMount`, lines 82-86). -/

/-- Instance state relevant to the callback: the component ref
(`this._component`, set by the ref callback before `componentDidMount`
fires), whether that component exposes `setNativeProps`, and the
`_invokeAnimatedPropsCallbackOnMount` flag. -/
structure MState where
  component : Option Nat
  hasSetNativeProps : Bool
  invokeOnMount : Bool
deriving DecidableEq, Repr

/-- Externally visible effects of the callback: a `setNativeProps` call with
the animated values, or a `forceUpdate` fallback. -/
inductive MEvent where
  | setNativeProps
  | forceUpdate
deriving DecidableEq, Repr

/-- `_animatedPropsCallback` (lines 194-207): with no component ref yet, set
the deferral flag and do nothing else; otherwise call `setNativeProps` when
available, else `forceUpdate`. -/
def animatedPropsCallback (s : MState) : MState × List MEvent :=
  match s.component with
  | none => ({ s with invokeOnMount := true }, [])
  | some _ =>
      if s.hasSetNativeProps then (s, [MEvent.setNativeProps])
      else (s, [MEvent.forceUpdate])

/-- `n` firings of the callback before mount. -/
def fireN : Nat → MState → MState × List MEvent
  | 0, s => (s, [])
  | n + 1, s =>
      let r := animatedPropsCallback s
      let r2 := fireN n r.1
      (r2.1, r.2 ++ r2.2)

/-- The ref callback installing the component (shape of `setLocalRef`,
lines 320-323). -/
def setComponentRef (c : Nat) (s : MState) : MState :=
  { s with component := some c }

/-- The replay block at the top of `componentDidMount` (lines 83-86): if the
deferral flag is set, clear it and invoke the callback once. -/
def didMountReplay (s : MState) : MState × List MEvent :=
  if s.invokeOnMount then
    animatedPropsCallback { s with invokeOnMount := false }
  else (s, [])

/-! ## View-descriptor publisher (`_attachAnimatedStyles`, lines 244-286). -/

/-- A host instance as produced by
`RNRenderer.findHostInstance_DEPRECATED` — carries `_nativeTag` and a
`viewConfig` with `uiViewClassName`. -/
structure HostInst where
  nativeTag : Nat
  uiViewClassName : Option String
deriving DecidableEq, Repr

/-- A style slot as seen by `_attachAnimatedStyles`: absent (`null` or
`undefined` entries), a plain style object, an animated style (one exposing
`viewDescriptors`), or a nested array of styles. -/
inductive StyleEntry where
  | absent
  | plainStyle (id : Nat)
  | animStyleE (id : Nat)
  | nested (items : List StyleEntry)
deriving Repr

/-- `flattenArray` (lines 41-58): flatten arbitrarily nested style arrays
into a flat ordered list. -/
def flattenStyleArray : List StyleEntry → List StyleEntry
  | [] => []
  | StyleEntry.nested items :: rest =>
      flattenStyleArray items ++ flattenStyleArray rest
  | e :: rest => e :: flattenStyleArray rest

/-- `style?.viewDescriptors` check (line 275). -/
def hasViewDescriptors : StyleEntry → Bool
  | StyleEntry.animStyleE _ => true
  | _ => false

/-- Calls `_attachAnimatedStyles` issues: `adaptViewConfig` and
`viewDescriptors.add({tag, name})`. -/
inductive ASCall where
  | adapt
  | addDescriptor (tag : Option Nat) (name : Option String)
deriving DecidableEq, Repr

/-- `_hasReanimated2Props(flattenStyles)` (lines 288-300). -/
def hasReanimated2Props (flatStyles : List StyleEntry)
    (animatedPropsHasDescriptors : Bool) (styleProvided : Bool) : Bool :=
  if animatedPropsHasDescriptors then true
  else if styleProvided then flatStyles.any hasViewDescriptors
  else false

/-- `_attachAnimatedStyles()` (lines 244-286).  `styleProp` is
`this.props.style` (a possibly nested array or a single entry);
`animatedPropsHasDescriptors` abstracts `this.props.animatedProps?.viewDescriptors`.
On non-web platforms a missing host instance throws (lines 256-260);
otherwise the (tag, name) descriptor is added to every descriptor-bearing
style and to the animatedProps node. -/
def attachAnimatedStyles (isWeb : Bool) (webTag : Nat)
    (hostInstance : Option HostInst) (styleIsArray : Bool)
    (styleProp : List StyleEntry) (styleProvided : Bool)
    (animatedPropsHasDescriptors : Bool) : Except String (List ASCall) :=
  let styles0 := if styleIsArray then styleProp
    else [StyleEntry.nested styleProp]
  let styles := flattenStyleArray styles0
  let resolve : Except String (Option Nat × Option String × List ASCall) :=
    if isWeb then Except.ok (some webTag, none, [])
    else
      match hostInstance with
      | none => Except.error
          "Cannot find host instance for this component. Maybe it renders nothing?"
      | some hi =>
          let adaptCalls :=
            if hasReanimated2Props styles animatedPropsHasDescriptors styleProvided
            then [ASCall.adapt] else []
          Except.ok (some hi.nativeTag, hi.uiViewClassName, adaptCalls)
  match resolve with
  | Except.error e => Except.error e
  | Except.ok (viewTag, viewName, adaptCalls) =>
      let styleCalls := styles.foldl (fun acc st =>
        if hasViewDescriptors st then
          acc ++ [ASCall.addDescriptor viewTag viewName]
        else acc) []
      let apCalls :=
        if animatedPropsHasDescriptors then
          [ASCall.addDescriptor viewTag viewName]
        else []
      Except.ok (adaptCalls ++ styleCalls ++ apCalls)

/-! ## Wrap-time component check (`createAnimatedComponent`, lines 60-66). -/

/-- The argument of `createAnimatedComponent`, as far as the invariant looks
at it: whether it is a function, and whether `Component.prototype` exists and
has a truthy `isReactComponent` marker. -/
structure ComponentArg where
  isFunction : Bool
  hasProto : Bool
  protoIsReactComponent : Bool
deriving DecidableEq, Repr

/-- `Component.prototype && Component.prototype.isReactComponent` (line 63). -/
def instanceHoldingProto (c : ComponentArg) : Bool :=
  c.hasProto && c.protoIsReactComponent

/-- The `invariant(...)` guard at the top of `createAnimatedComponent`
(lines 61-66): throws for a function without an instance-holding prototype,
otherwise proceeds. -/
def createAnimatedComponentCheck (c : ComponentArg) : Except String Unit :=
  if !c.isFunction || instanceHoldingProto c then Except.ok ()
  else Except.error
    "createAnimatedComponent does not support stateless functional components; use a class component instead."

/-! ## Native prop-update routing (`listener`, lines 18-21, and
`_updateFromNative`, lines 231-234). -/

/-- Effects a native notification delivery can have. -/
inductive DEvent where
  | setNativePropsOn (viewTag : Nat)
  | forceUpdateOn (viewTag : Nat)
  | errorRaised
deriving DecidableEq, Repr

/-- `_updateFromNative(props)` (lines 231-234): optional-call
`this._component.setNativeProps?.(props)` — a no-op when the component does
not expose `setNativeProps`. -/
def updateFromNative (viewTag : Nat) (hasSetNativeProps : Bool) :
    List DEvent :=
  if hasSetNativeProps then [DEvent.setNativePropsOn viewTag] else []

/-- The module-level `listener(data)` (lines 18-21): look the view tag up in
`NODE_MAPPING` and forward to `_updateFromNative` when found.  `instances`
maps each registered tag to whether its component has `setNativeProps`. -/
def listenerDeliver (instances : List (Nat × Bool)) (viewTag : Nat) :
    List DEvent :=
  match instances.lookup viewTag with
  | some hasSNP => updateFromNative viewTag hasSNP
  | none => []

/-! ## Static prop projector (`_filterNonAnimatedProps`, lines 356-406, and
`_filterNonAnimatedStyle`, lines 341-354).

JS prop values, as the projector distinguishes them: `undef` is JS
`undefined`; `animValue` is an `AnimatedValue` (an `AnimatedNode` carrying
`_startingValue`); `animNode` is any other `AnimatedNode`; `animEvent` is an
`AnimatedEvent`; `workletRef` is a ref whose `current` is a
`WorkletEventHandler` (with its `eventNames` and optional `listeners` map to
callback ids); `animStyle` is a style produced by `useAnimatedStyle`
(recognised by its `viewDescriptors` field, carrying `initial` and the
mutable `viewRef` array of instance ids); `animProps` is the
`useAnimatedProps` container; `dummy` is the module-level `dummyListener`;
`cb` is a plain callback value.  Handler refs are modelled per key. -/
inductive PVal where
  | undef
  | num (n : Int)
  | strv (s : String)
  | dummy
  | cb (id : Nat)
  | animValue (nodeID : Nat) (startingValue : Int)
  | animNode (nodeID : Nat)
  | animEvent (nodeID : Nat)
  | workletRef (eventNames : List String) (listeners : Option (List (String × Nat)))
  | animStyle (initial : List (String × PVal)) (viewRef : List Nat)
  | animProps (initial : List (String × PVal))
  | obj (fields : List (String × PVal))
  | arr (items : List PVal)
deriving Repr

mutual

/-- `hasAnimatedNodes(value)` (lines 28-39): true for any `AnimatedNode`
(`AnimatedValue` and `AnimatedEvent` included), and recursively for arrays
and plain objects.  `animStyle` and `animProps` are plain objects whose
animated-node content can only sit in their `initial` fields. -/
def hasAnimatedNodes : PVal → Bool
  | PVal.animValue _ _ => true
  | PVal.animNode _ => true
  | PVal.animEvent _ => true
  | PVal.arr items => hasAnimatedNodesList items
  | PVal.obj fields => hasAnimatedNodesFields fields
  | PVal.animStyle init _ => hasAnimatedNodesFields init
  | PVal.animProps init => hasAnimatedNodesFields init
  | _ => false

/-- `hasAnimatedNodes` over an array (`value.some(...)`, line 33). -/
def hasAnimatedNodesList : List PVal → Bool
  | [] => false
  | v :: rest => hasAnimatedNodes v || hasAnimatedNodesList rest

/-- `hasAnimatedNodes` over an object (`Object.keys(value).some(...)`,
line 36). -/
def hasAnimatedNodesFields : List (String × PVal) → Bool
  | [] => false
  | (_, v) :: rest => hasAnimatedNodes v || hasAnimatedNodesFields rest

end

/-- `_filterNonAnimatedStyle(inputStyle)` (lines 341-354): keep entries with
no animated nodes anywhere inside; replace an entry that is directly an
`AnimatedValue` by its `_startingValue`; drop every other animated entry. -/
def filterNonAnimatedStyle : List (String × PVal) → List (String × PVal)
  | [] => []
  | (k, v) :: rest =>
      if hasAnimatedNodes v then
        match v with
        | PVal.animValue _ sv => (k, PVal.num sv) :: filterNonAnimatedStyle rest
        | _ => filterNonAnimatedStyle rest
      else (k, v) :: filterNonAnimatedStyle rest

/-- JS object assignment `o[k] = v` on an assoc list built in insertion
order: overwrite in place when the key exists, append otherwise. -/
def setField (l : List (String × PVal)) (k : String) (v : PVal) :
    List (String × PVal) :=
  if l.any (fun kv => kv.1 = k) then
    l.map (fun kv => if kv.1 = k then (k, v) else kv)
  else l ++ [(k, v)]

/-- The external `StyleSheet.flatten` of react-native, at its interface
boundary: merge a possibly nested list of style objects left to right into
one object, skipping null/undefined and non-object entries. -/
def flattenInto (acc : List (String × PVal)) : List PVal → List (String × PVal)
  | [] => acc
  | PVal.obj fields :: rest =>
      flattenInto (fields.foldl (fun a kv => setField a kv.1 kv.2) acc) rest
  | PVal.arr items :: rest => flattenInto (flattenInto acc items) rest
  | _ :: rest => flattenInto acc rest

/-- One style slot in the style branch of `_filterNonAnimatedProps`
(lines 362-370): an animated style contributes its `initial` object to the
flattened style and gets the instance pushed onto its `viewRef`; anything
else passes through untouched.  Returns (value used for flattening, value as
left in the input props). -/
def processOne (refId : Nat) : PVal → PVal × PVal
  | PVal.animStyle init vr =>
      (PVal.obj init, PVal.animStyle init (vr ++ [refId]))
  | s => (s, s)

/-- The `viewRef.push(this)` side effect of the style branch, in isolation. -/
def pushStyleRef (refId : Nat) : PVal → PVal
  | PVal.animStyle init vr => PVal.animStyle init (vr ++ [refId])
  | s => s

/-- `value.initial` of the `animatedProps` branch (lines 374-377); a value
without an `initial` field would make the JS throw, modelled here as an
empty splice. -/
def animPropsInitial : PVal → List (String × PVal)
  | PVal.animProps init => init
  | PVal.animStyle init _ => init
  | _ => []

/-- Output entries one prop contributes in `_filterNonAnimatedProps`
(lines 358-404), following the branch order of the source: `style`,
`animatedProps`, `AnimatedEvent`, worklet handler ref, non-`AnimatedNode`
pass-through, `AnimatedValue` starting value, other `AnimatedNode` dropped. -/
def entryOutput (refId : Nat) (k : String) (v : PVal) :
    List (String × PVal) :=
  if k = "style" then
    let styles := match v with
      | PVal.arr xs => xs
      | _ => [v]
    [(k, PVal.obj (filterNonAnimatedStyle
        (flattenInto [] (styles.map (fun s => (processOne refId s).1)))))]
  else if k = "animatedProps" then animPropsInitial v
  else
    match v with
    | PVal.animEvent _ => [(k, PVal.dummy)]
    | PVal.workletRef names listeners =>
        if names.isEmpty then [(k, PVal.dummy)]
        else
          names.map (fun name =>
            (name,
             match listeners with
             | some l =>
                 match l.lookup name with
                 | some cid => PVal.cb cid
                 | none => PVal.undef
             | none => PVal.dummy))
    | PVal.animValue _ sv => [(k, PVal.num sv)]
    | PVal.animNode _ => []
    | v => [(k, v)]

/-- What one prop looks like in the input props after `_filterNonAnimatedProps`
ran: only the style branch mutates, pushing the instance onto the `viewRef`
of every animated style it visits (line 365). -/
def entryInputAfter (refId : Nat) (k : String) (v : PVal) : PVal :=
  if k = "style" then
    match v with
    | PVal.arr xs => PVal.arr (xs.map (pushStyleRef refId))
    | v => pushStyleRef refId v
  else v

/-- Accumulate the output entries of a prop list into the `props` object
being built (`props[key] = ...`). -/
def outputFold (refId : Nat) (acc : List (String × PVal))
    (l : List (String × PVal)) : List (String × PVal) :=
  l.foldl (fun a kv =>
    (entryOutput refId kv.1 kv.2).foldl (fun a2 e => setField a2 e.1 e.2) a) acc

/-- `_filterNonAnimatedProps(inputProps)` (lines 356-406): returns the
projected plain props, paired with the state of the input props after the
call (reflecting the `viewRef.push` mutations). -/
def filterNonAnimatedProps (refId : Nat) (inputProps : List (String × PVal)) :
    List (String × PVal) × List (String × PVal) :=
  (outputFold refId [] inputProps,
   inputProps.map (fun kv => (kv.1, entryInputAfter refId kv.1 kv.2)))

/-- Erase the `viewRef` lists at the positions the style branch can reach,
to state that the projector changes nothing else in its input. -/
def stripStyleV : PVal → PVal
  | PVal.animStyle init _ => PVal.animStyle init []
  | s => s

/-- `stripStyleV` applied where the style branch applies `pushStyleRef`. -/
def stripEntry (k : String) (v : PVal) : PVal :=
  if k = "style" then
    match v with
    | PVal.arr xs => PVal.arr (xs.map stripStyleV)
    | v => stripStyleV v
  else v

/-- Erase all reachable `viewRef` lists in a prop list. -/
def stripStyleRefs (p : List (String × PVal)) : List (String × PVal) :=
  p.map (fun kv => (kv.1, stripEntry kv.1 kv.2))

/-- The `value instanceof AnimatedValue` test of the projector. -/
def isAnimValue : PVal → Bool
  | PVal.animValue _ _ => true
  | _ => false

/-! ## Theorems -/

/-- Claim C1.  The event-binding differ does NOT issue the symmetric
difference of event identities: on an update from a prop set binding
`onScroll` to `AnimatedEvent` node 1 to one binding it to node 2, the source
(which reads `this.props[key]` while walking the keys of `prevProps`,
line 155) issues no native call at all — handler 1 is never detached and
handler 2 is never attached — while the spec-described diff issues exactly
one detach of node 1 followed by one attach of node 2.  The in-code comment
at lines 158-159 documents the spec behaviour, so the code contradicts its
own documentation. -/
theorem reattachNativeEvents_changed_identity_issues_no_calls :
    reattachNativeEvents [("onScroll", EProp.event 1)]
        [("onScroll", EProp.event 2)] = [] ∧
    specEventDiff [("onScroll", EProp.event 1)] [("onScroll", EProp.event 2)] =
      [NEvCall.detach 1 "onScroll", NEvCall.attach 2 "onScroll"] := by
  exact ⟨rfl, rfl⟩

/-- Claim C2.  If the binder returns the node it was given (reuse), the
trace of `_attachProps` contains no detach; if it returns a new node, the
trace is exactly the installation followed by one detach of the old node, so
the old node is detached exactly once and only after the new node is
installed. -/
theorem attachProps_install_before_detach (binder : Option Nat → Nat)
    (s : APState) (o : Nat) (hold : s.propsAnimated = some o) :
    (binder (some o) = o →
      (attachProps binder s).2 = [APEvent.install o]) ∧
    (binder (some o) ≠ o →
      (attachProps binder s).2 =
        [APEvent.install (binder (some o)), APEvent.detachOld o]) := by
  obtain ⟨p⟩ := s
  cases hold
  constructor
  · intro h
    simp [attachProps, h]
  · intro h
    simp [attachProps, h]

/-- Witness for C2 at a concrete input: a binder constructing node 5 while
node 3 is held installs 5 and then detaches 3. -/
theorem attachProps_install_before_detach_witness :
    ((fun _ => 5 : Option Nat → Nat) (some 3) ≠ 3) ∧
    (attachProps (fun _ => 5) ⟨some 3⟩).2 =
      [APEvent.install 5, APEvent.detachOld 3] :=
  ⟨by decide,
   (attachProps_install_before_detach (fun _ => 5) ⟨some 3⟩ 3 rfl).2 (by decide)⟩

/-- Claim C7.  On a non-web platform, when `findHostInstance_DEPRECATED`
resolves no host instance, `_attachAnimatedStyles` returns the synchronous
error instead of registering any descriptor. -/
theorem attachAnimatedStyles_missing_host_throws (webTag : Nat)
    (styleIsArray : Bool) (styleProp : List StyleEntry)
    (styleProvided animatedPD : Bool) :
    attachAnimatedStyles false webTag none styleIsArray styleProp
        styleProvided animatedPD =
      Except.error
        "Cannot find host instance for this component. Maybe it renders nothing?" := by
  rfl

/-- Claim C8.  `createAnimatedComponent` raises its descriptive error for a
function argument without an instance-holding prototype, and raises nothing
for a component whose prototype carries the `isReactComponent` marker. -/
theorem createAnimatedComponent_rejects_stateless (c : ComponentArg) :
    (c.isFunction = true → instanceHoldingProto c = false →
      createAnimatedComponentCheck c = Except.error
        "createAnimatedComponent does not support stateless functional components; use a class component instead.") ∧
    (instanceHoldingProto c = true →
      createAnimatedComponentCheck c = Except.ok ()) := by
  constructor
  · intro h1 h2
    simp [createAnimatedComponentCheck, h1, h2]
  · intro h
    simp [createAnimatedComponentCheck, h]

/-- Witness for C8: a stateless function component is rejected, a class
component is accepted. -/
theorem createAnimatedComponent_rejects_stateless_witness :
    createAnimatedComponentCheck ⟨true, false, false⟩ = Except.error
      "createAnimatedComponent does not support stateless functional components; use a class component instead." ∧
    createAnimatedComponentCheck ⟨true, true, true⟩ = Except.ok () :=
  ⟨(createAnimatedComponent_rejects_stateless ⟨true, false, false⟩).1 rfl rfl,
   (createAnimatedComponent_rejects_stateless ⟨true, true, true⟩).2 rfl⟩

/-- Claim C9.  When removing the last registry entry, `_detachPropUpdater`
calls `removeAllListeners` on the channel, so EVERY listener — including any
listener some other party installed — is removed, not just the one the
registry subscribed. -/
theorem detachPropUpdater_removes_every_listener (s : RegState) (tag : Nat)
    (h : (s.mapping.erase tag).card = 0) :
    (detachPropUpdater tag s).1.chan = [] ∧
    ∀ l, l ∈ s.chan → l ∉ (detachPropUpdater tag s).1.chan := by
  refine ⟨?_, ?_⟩ <;> simp [detachPropUpdater, h]

/-- Witness for C9: removing the single entry clears a channel that held a
foreign listener alongside the registry listener. -/
theorem detachPropUpdater_removes_every_listener_witness :
    ((({5} : Finset Nat).erase 5).card = 0) ∧
    (detachPropUpdater 5
        ⟨{5}, [Listener.registryListener, Listener.foreign 9]⟩).1.chan = [] :=
  ⟨by decide,
   (detachPropUpdater_removes_every_listener
      ⟨{5}, [Listener.registryListener, Listener.foreign 9]⟩ 5 (by decide)).1⟩

/-- Claim C10.  A native notification whose view tag is registered but whose
instance component has no `setNativeProps` function is silently discarded:
no event at all — no error, no `forceUpdate` — results from the delivery. -/
theorem listenerDeliver_discards_without_setNativeProps
    (instances : List (Nat × Bool)) (tag : Nat)
    (h : instances.lookup tag = some false) :
    listenerDeliver instances tag = [] := by
  simp [listenerDeliver, h, updateFromNative]

/-- Witness for C10 at a concrete registry: tag 3 is registered with a
component lacking `setNativeProps`; delivery produces nothing. -/
theorem listenerDeliver_discards_without_setNativeProps_witness :
    ([((3:Nat), false)].lookup 3 = some false) ∧
    listenerDeliver [(3, false)] 3 = [] :=
  ⟨rfl, listenerDeliver_discards_without_setNativeProps [(3, false)] 3 rfl⟩

/-- The registry invariant: the channel listener is installed iff
`NODE_MAPPING` is non-empty. -/
def regInv (s : RegState) : Prop := subscribed s ↔ s.mapping.Nonempty

lemma regStep_inv (s : RegState) (op : RegOp) (h : regInv s) :
    regInv (regStep s op).1 := by
  cases op with
  | register tag =>
      by_cases hc : (insert tag s.mapping).card = 1
      · simp [regStep, attachPropUpdater, hc, regInv, subscribed,
          Finset.insert_nonempty]
      · have hpos : 0 < (insert tag s.mapping).card :=
          Finset.card_pos.mpr (Finset.insert_nonempty _ _)
        have h2 : 2 ≤ (insert tag s.mapping).card := by omega
        have hsub : s.mapping.Nonempty := by
          have := Finset.card_insert_le tag s.mapping
          exact Finset.card_pos.mp (by omega)
        simp [regStep, attachPropUpdater, hc, regInv, subscribed,
          Finset.insert_nonempty]
        exact h.mpr hsub
  | unregister tag =>
      by_cases hc : (s.mapping.erase tag).card = 0
      · have : s.mapping.erase tag = ∅ := Finset.card_eq_zero.mp hc
        simp [regStep, detachPropUpdater, hc, regInv, subscribed, this]
      · have hne : (s.mapping.erase tag).Nonempty :=
          Finset.card_pos.mp (Nat.pos_of_ne_zero hc)
        have hsub : s.mapping.Nonempty :=
          hne.mono (Finset.erase_subset _ _)
        simp [regStep, detachPropUpdater, hc, regInv, subscribed, hne]
        exact h.mpr hsub

lemma runRegOps_inv (ops : List RegOp) (s : RegState) (h : regInv s) :
    regInv (runRegOps ops s).1 := by
  induction ops generalizing s with
  | nil => exact h
  | cons op ops ih =>
      simpa [runRegOps] using ih (regStep s op).1 (regStep_inv s op h)

/-- Claim C3, counterexample.  The claim says only a 0-to-1 register and a
1-to-0 unregister touch the subscription; but registering the SAME view tag
twice — the count stays at 1 on the second register — makes the code issue a
second `addListener` call, because `_attachPropUpdater` tests
`NODE_MAPPING.size === 1` after an overwriting `set`. -/
theorem registry_duplicate_register_double_subscribes :
    (runRegOps [RegOp.register 1, RegOp.register 1] initRegState).2 =
      [RegCall.subscribe, RegCall.subscribe] := by
  decide

/-- Claim C3, amended.  For every sequence of register/unregister operations
the channel is subscribed afterwards iff the registry is non-empty; a
register whose resulting size is 1 subscribes in the same operation (this
covers the 0-to-1 transition, and also an overwrite of the sole entry), an
unregister whose resulting size is 0 unsubscribes in the same operation
(this covers the 1-to-0 transition, and also an unregister on an empty
registry); every other operation leaves the subscription untouched; and
registering two distinct instances then unregistering both yields exactly
one subscribe followed by one unsubscribe. -/
theorem registry_subscription_invariant (ops : List RegOp) :
    (subscribed (runRegOps ops initRegState).1 ↔
      (runRegOps ops initRegState).1.mapping.Nonempty) ∧
    (∀ tag s, (insert tag s.mapping).card = 1 →
      (attachPropUpdater tag s).2 = [RegCall.subscribe]) ∧
    (∀ tag s, (insert tag s.mapping).card ≠ 1 →
      (attachPropUpdater tag s).2 = []) ∧
    (∀ tag s, (s.mapping.erase tag).card = 0 →
      (detachPropUpdater tag s).2 = [RegCall.unsubscribe]) ∧
    (∀ tag s, (s.mapping.erase tag).card ≠ 0 →
      (detachPropUpdater tag s).2 = []) ∧
    (runRegOps [RegOp.register 1, RegOp.register 2, RegOp.unregister 1,
        RegOp.unregister 2] initRegState).2 =
      [RegCall.subscribe, RegCall.unsubscribe] := by
  refine ⟨runRegOps_inv ops initRegState (by simp [regInv, subscribed, initRegState]),
    ?_, ?_, ?_, ?_, by decide⟩
  · intro tag s hc; simp [attachPropUpdater, hc]
  · intro tag s hc; simp [attachPropUpdater, hc]
  · intro tag s hc; simp [detachPropUpdater, hc]
  · intro tag s hc; simp [detachPropUpdater, hc]

/-- Witness for C3 (amended) at concrete inputs: a register onto the empty
registry subscribes, and scenario E yields one subscribe then one
unsubscribe. -/
theorem registry_subscription_invariant_witness :
    ((insert (1:Nat) (∅ : Finset Nat)).card = 1) ∧
    (attachPropUpdater 1 initRegState).2 = [RegCall.subscribe] ∧
    (runRegOps [RegOp.register 1, RegOp.register 2, RegOp.unregister 1,
        RegOp.unregister 2] initRegState).2 =
      [RegCall.subscribe, RegCall.unsubscribe] :=
  ⟨by decide,
   (registry_subscription_invariant []).2.1 1 initRegState (by decide),
   (registry_subscription_invariant []).2.2.2.2.2⟩

/-- `n` pre-mount firings with the flag already set leave the state fixed
and emit nothing. -/
lemma fireN_flagged (n : Nat) (b : Bool) :
    fireN n ⟨none, b, true⟩ = (⟨none, b, true⟩, []) := by
  induction n with
  | zero => rfl
  | succ m ih => simp [fireN, animatedPropsCallback, ih]

/-- Claim C6.  One or more firings of `_animatedPropsCallback` before the
component ref exists emit no external call and set the deferral flag; the
replay block of `componentDidMount` then invokes the callback exactly once
(one `setNativeProps` or one `forceUpdate`) and clears the flag; with no
premature firing the replay block invokes nothing. -/
theorem animatedPropsCallback_deferred_replay (n : Nat) (b : Bool) (c : Nat)
    (hn : 1 ≤ n) :
    (fireN n ⟨none, b, false⟩).2 = [] ∧
    (fireN n ⟨none, b, false⟩).1.invokeOnMount = true ∧
    (didMountReplay (setComponentRef c (fireN n ⟨none, b, false⟩).1)).2.length
      = 1 ∧
    (didMountReplay
        (setComponentRef c (fireN n ⟨none, b, false⟩).1)).1.invokeOnMount
      = false ∧
    (didMountReplay (setComponentRef c ⟨none, b, false⟩)).2 = [] := by
  obtain ⟨m, rfl⟩ : ∃ m, n = m + 1 := ⟨n - 1, by omega⟩
  have hfire : fireN (m + 1) ⟨none, b, false⟩ = (⟨none, b, true⟩, []) := by
    simp [fireN, animatedPropsCallback, fireN_flagged]
  rw [hfire]
  cases b <;>
    simp [didMountReplay, setComponentRef, animatedPropsCallback]

/-- Witness for C6: two premature firings, then mount, on a component with
`setNativeProps`. -/
theorem animatedPropsCallback_deferred_replay_witness :
    (1 ≤ 2) ∧
    (fireN 2 ⟨none, true, false⟩).2 = [] ∧
    (didMountReplay (setComponentRef 0 (fireN 2 ⟨none, true, false⟩).1)).2.length
      = 1 :=
  ⟨by decide,
   (animatedPropsCallback_deferred_replay 2 true 0 (by decide)).1,
   (animatedPropsCallback_deferred_replay 2 true 0 (by decide)).2.2.1⟩

/-- The flattening input a style slot contributes is unchanged by the
`viewRef` push. -/
lemma processOne_pushStyleRef (r : Nat) (s : PVal) :
    (processOne r (pushStyleRef r s)).1 = (processOne r s).1 := by
  cases s <;> rfl

lemma stripStyleV_pushStyleRef (r : Nat) (s : PVal) :
    stripStyleV (pushStyleRef r s) = stripStyleV s := by
  cases s <;> rfl

/-- The output entries a prop contributes are unchanged by the mutation the
style branch performed on it. -/
lemma entryOutput_entryInputAfter (r : Nat) (k : String) (v : PVal) :
    entryOutput r k (entryInputAfter r k v) = entryOutput r k v := by
  by_cases hk : k = "style"
  · subst hk
    cases v <;>
      first
      | rfl
      | simp [entryInputAfter, entryOutput, List.map_map,
          Function.comp_def, processOne_pushStyleRef]
  · simp [entryInputAfter, hk]

lemma stripEntry_entryInputAfter (r : Nat) (k : String) (v : PVal) :
    stripEntry k (entryInputAfter r k v) = stripEntry k v := by
  by_cases hk : k = "style"
  · subst hk
    cases v <;>
      first
      | rfl
      | simp [entryInputAfter, stripEntry, List.map_map,
          Function.comp_def, stripStyleV_pushStyleRef]
  · simp [entryInputAfter, hk]

/-- Re-projecting the mutated input produces the same output object. -/
lemma outputFold_entryInputAfter (r : Nat) (p : List (String × PVal)) :
    ∀ acc, outputFold r acc
        (p.map (fun kv => (kv.1, entryInputAfter r kv.1 kv.2))) =
      outputFold r acc p := by
  induction p with
  | nil => intro acc; rfl
  | cons kv rest ih =>
      intro acc
      simp only [List.map_cons, outputFold, List.foldl_cons,
        entryOutput_entryInputAfter]
      exact ih _

/-- Claim C4, counterexample.  The projector is not mutation-free: on props
holding a `useAnimatedStyle` style, `_filterNonAnimatedProps` pushes the
instance onto the style's `viewRef` array (line 365), so the input props
differ after the call. -/
theorem filterNonAnimatedProps_mutates_input :
    (filterNonAnimatedProps 7
        [("style", PVal.animStyle [("opacity", PVal.num 1)] [])]).2 ≠
      [("style", PVal.animStyle [("opacity", PVal.num 1)] [])] := by
  intro h
  simp [filterNonAnimatedProps, entryInputAfter, pushStyleRef] at h

/-- Claim C4, amended.  The projection yields structurally equal results
when called again on the (possibly mutated) props, and the only mutation it
performs on its input is appending the instance reference to the `viewRef`
observer list of each animated style entry: erasing those lists recovers the
original props exactly. -/
theorem filterNonAnimatedProps_idempotent_mod_viewRef (r : Nat)
    (p : List (String × PVal)) :
    (filterNonAnimatedProps r ((filterNonAnimatedProps r p).2)).1 =
      (filterNonAnimatedProps r p).1 ∧
    stripStyleRefs ((filterNonAnimatedProps r p).2) = stripStyleRefs p := by
  constructor
  · exact outputFold_entryInputAfter r p []
  · simp [filterNonAnimatedProps, stripStyleRefs, List.map_map, Function.comp,
      stripEntry_entryInputAfter]

lemma lookup_none_of_not_mem_keys (l : List (String × PVal)) (k : String) :
    k ∉ l.map Prod.fst → l.lookup k = none := by
  induction l with
  | nil => intro _; rfl
  | cons kv rest ih =>
      obtain ⟨a, b⟩ := kv
      intro h
      simp only [List.map_cons, List.mem_cons, not_or] at h
      simp [List.lookup, beq_false_of_ne h.1, ih h.2]

lemma mem_keys_filterStyle (st : List (String × PVal)) (k : String) :
    k ∈ (filterNonAnimatedStyle st).map Prod.fst → k ∈ st.map Prod.fst := by
  induction st with
  | nil => intro h; simp [filterNonAnimatedStyle] at h
  | cons kv rest ih =>
      obtain ⟨a, b⟩ := kv
      intro h
      cases hv : hasAnimatedNodes b with
      | false =>
          simp only [filterNonAnimatedStyle, hv, Bool.false_eq_true,
            if_false, List.map_cons, List.mem_cons] at h
          rcases h with h | h
          · simp [h]
          · simp [ih h]
      | true =>
          cases b <;>
            simp only [filterNonAnimatedStyle, hv, if_true, List.map_cons,
              List.mem_cons] at h <;>
            first
            | (rcases h with h | h
               · simp [h]
               · simp [ih h])
            | simp [ih h]

lemma filterStyle_lookup_animValue (st : List (String × PVal)) (k : String)
    (id : Nat) (sv : Int) :
    st.lookup k = some (PVal.animValue id sv) →
    (filterNonAnimatedStyle st).lookup k = some (PVal.num sv) := by
  induction st with
  | nil => intro h; simp [List.lookup] at h
  | cons kv rest ih =>
      obtain ⟨a, b⟩ := kv
      intro h
      by_cases hk : k = a
      · subst hk
        have hb : b = PVal.animValue id sv := by
          simpa [List.lookup] using h
        subst hb
        simp [filterNonAnimatedStyle, hasAnimatedNodes, List.lookup]
      · have h2 : rest.lookup k = some (PVal.animValue id sv) := by
          simpa [List.lookup, beq_false_of_ne hk] using h
        have hres := ih h2
        cases hv : hasAnimatedNodes b with
        | false =>
            simp [filterNonAnimatedStyle, hv, List.lookup,
              beq_false_of_ne hk, hres]
        | true =>
            cases b <;>
              simp [filterNonAnimatedStyle, hv, List.lookup,
                beq_false_of_ne hk, hres]

lemma filterStyle_lookup_dropped (st : List (String × PVal)) (k : String)
    (v : PVal) (hanim : hasAnimatedNodes v = true)
    (hnv : isAnimValue v = false) :
    (st.map Prod.fst).Nodup → st.lookup k = some v →
    (filterNonAnimatedStyle st).lookup k = none := by
  induction st with
  | nil => intro _ h; simp [List.lookup] at h
  | cons kv rest ih =>
      obtain ⟨a, b⟩ := kv
      intro hnd h
      simp only [List.map_cons, List.nodup_cons] at hnd
      by_cases hk : k = a
      · subst hk
        have hb : b = v := by simpa [List.lookup] using h
        subst hb
        have hnone : (filterNonAnimatedStyle rest).lookup k = none :=
          lookup_none_of_not_mem_keys _ _
            (fun hm => hnd.1 (mem_keys_filterStyle rest k hm))
        cases b <;>
          first
          | simpa [filterNonAnimatedStyle, hanim] using hnone
          | simp [isAnimValue] at hnv
      · have h2 : rest.lookup k = some v := by
          simpa [List.lookup, beq_false_of_ne hk] using h
        have hres := ih hnd.2 h2
        cases hv : hasAnimatedNodes b with
        | false =>
            simp [filterNonAnimatedStyle, hv, List.lookup,
              beq_false_of_ne hk, hres]
        | true =>
            cases b <;>
              simp [filterNonAnimatedStyle, hv, List.lookup,
                beq_false_of_ne hk, hres]

/-- Claim C5, counterexample.  A style entry that merely CONTAINS an
animated value nested in plain structure is dropped from the projection
outright: projecting a style whose `transform` entry nests `AnimatedValue`
node 1 (starting value 7) yields an empty style object — the starting value
is not substituted anywhere, contradicting the claim at this input. -/
theorem filterNonAnimatedProps_drops_nested_animValue :
    (filterNonAnimatedProps 0
        [("style", PVal.obj [("transform", PVal.arr [PVal.animValue 1 7])])]).1 =
      [("style", PVal.obj [])] ∧
    (filterNonAnimatedProps 0
        [("style", PVal.obj [("transform", PVal.arr [PVal.animValue 1 7])])]).1 ≠
      [("style", PVal.obj [("transform", PVal.arr [PVal.num 7])])] := by
  have hA : (filterNonAnimatedProps 0
      [("style", PVal.obj [("transform", PVal.arr [PVal.animValue 1 7])])]).1 =
      [("style", PVal.obj [])] := by
    simp [filterNonAnimatedProps, outputFold, entryOutput, setField,
      flattenInto, processOne, filterNonAnimatedStyle, hasAnimatedNodes,
      hasAnimatedNodesList, hasAnimatedNodesFields]
  refine ⟨hA, ?_⟩
  rw [hA]
  simp

/-- Claim C5, amended.  The projector substitutes the starting value only
for a value that is ITSELF directly an animated value node: a style entry
bound directly to an `AnimatedValue` projects to that node starting value
(so a component constructed this way renders the starting value, not an
empty style); a style entry that merely contains animated nodes nested in
plain structure, without being an `AnimatedValue` itself, is dropped from
the projected style. -/
theorem filterNonAnimatedStyle_starting_value (st : List (String × PVal)) :
    (∀ k id sv, st.lookup k = some (PVal.animValue id sv) →
      (filterNonAnimatedStyle st).lookup k = some (PVal.num sv)) ∧
    (∀ k v, hasAnimatedNodes v = true → isAnimValue v = false →
      (st.map Prod.fst).Nodup → st.lookup k = some v →
      (filterNonAnimatedStyle st).lookup k = none) ∧
    ((filterNonAnimatedProps 0
        [("style", PVal.obj [("width", PVal.animValue 3 42)])]).1 =
      [("style", PVal.obj [("width", PVal.num 42)])]) := by
  refine ⟨fun k id sv h => filterStyle_lookup_animValue st k id sv h,
    fun k v ha hv hnd h => filterStyle_lookup_dropped st k v ha hv hnd h, ?_⟩
  simp [filterNonAnimatedProps, outputFold, entryOutput, setField,
    flattenInto, processOne, filterNonAnimatedStyle, hasAnimatedNodes]

/-- Witness for C5 (amended): a style binding `width` directly to
`AnimatedValue` node 3 with starting value 42 projects `width` to 42. -/
theorem filterNonAnimatedStyle_starting_value_witness :
    ([("width", PVal.animValue 3 42)].lookup "width" =
      some (PVal.animValue 3 42)) ∧
    (filterNonAnimatedStyle [("width", PVal.animValue 3 42)]).lookup "width" =
      some (PVal.num 42) :=
  ⟨rfl,
   (filterNonAnimatedStyle_starting_value
      [("width", PVal.animValue 3 42)]).1 "width" 3 42 rfl⟩

end Reanimated
